import Mathlib

/-
Verification of the SchemaGen facade (server.py): a thin layer translating
typed requests into SQL statements executed against an embedded SQLite
database.  The layer's own code is pure string building plus dictionary
manipulation; the embedded engine is modelled by explicit state passing over
a catalog of tables.  Engine behaviours that the layer relies on (stored
creation DDL, rowid assignment, SQL three-valued equality, the renaming of
duplicate result columns in CREATE TABLE ... AS SELECT, and the error cases
for empty column lists, duplicate columns, missing tables and missing
columns) are modelled after the documented SQLite semantics.

Modelling boundary: table and column name strings are treated as opaque
identifiers (the injection surface that arises from interpolating hostile
identifier strings into statement text is outside a shallow embedding, and
the specification documents it separately as a known risk).  Python dicts
are modelled as association lists looked up by first occurrence; dict
literals produced by real callers always have distinct keys.
-/

namespace SchemaGen

/-- Scalar values stored in the database: SQL NULL, integers and text.
    The layer passes values through unchanged, so these three constructors
    cover everything the claims exercise. -/
inductive Value where
  | null : Value
  | int (i : Int) : Value
  | text (s : String) : Value
deriving DecidableEq, Repr

/-- A row as produced by dict_factory: an association list from column name
    to value, in the column order of the table. -/
abbrev Row := List (String × Value)

/-- First-occurrence lookup in an association list, the semantics of a
    Python dict access (dict keys are unique, so first occurrence is the
    occurrence). -/
def alookup {α : Type} : List (String × α) → String → Option α
  | [], _ => none
  | p :: rest, k => if p.1 == k then some p.2 else alookup rest k

/-- Value of a column in a row. -/
def rowGet (r : Row) (c : String) : Option Value :=
  alookup r c

/-- Membership test on a list of names. -/
def hasCol (cols : List String) (c : String) : Bool :=
  cols.any (fun x => x == c)

/-- Distinctness test on a list of names. -/
def distinctB : List String → Bool
  | [] => true
  | x :: xs => !(hasCol xs x) && distinctB xs

/-- One table of the database: declared columns (name and raw type string,
    in declaration order), the stored rows tagged with their engine-assigned
    rowid, and the creation DDL text stored in the catalog. -/
structure Table where
  columns : List (String × String)
  rows : List (Int × Row)
  ddl : String
deriving DecidableEq, Repr

/-- The database: the catalog as an association list from table name to
    table, in creation order (the enumeration order of sqlite_master). -/
abbrev DB := List (String × Table)

/-- Catalog lookup by table name. -/
def lookupTable (db : DB) (n : String) : Option Table :=
  alookup db n

/-- Existence test used by IF NOT EXISTS and by DDL validity checks. -/
def tableExists (db : DB) (n : String) : Bool :=
  (lookupTable db n).isSome

/-- Replace the value stored under the first occurrence of a key. -/
def setFirst {α : Type} : List (String × α) → String → α → List (String × α)
  | [], _, _ => []
  | p :: rest, k, v => if p.1 == k then (k, v) :: rest else p :: setFirst rest k v

/-- Remove the first occurrence of a key. -/
def removeFirst {α : Type} : List (String × α) → String → List (String × α)
  | [], _ => []
  | p :: rest, k => if p.1 == k then rest else p :: removeFirst rest k

/-- Python dict assignment d[k] = v: overwrite in place when the key is
    present, append at the end otherwise. -/
def dictSet {α : Type} (d : List (String × α)) (k : String) (v : α) :
    List (String × α) :=
  if (alookup d k).isSome then setFirst d k v else d ++ [(k, v)]

/-- Well-formedness the engine maintains for every table: distinct column
    names, and every stored row lists exactly the declared columns in
    order. -/
def TableWF (t : Table) : Prop :=
  distinctB (t.columns.map Prod.fst) = true ∧
  ∀ r ∈ t.rows, r.2.map Prod.fst = t.columns.map Prod.fst

/-- Well-formedness of the catalog: table names are distinct. -/
def DBWF (db : DB) : Prop :=
  distinctB (db.map Prod.fst) = true

instance (t : Table) : Decidable (TableWF t) := by
  unfold TableWF; infer_instance

instance (db : DB) : Decidable (DBWF db) := by
  unfold DBWF; infer_instance

/-- SQL equality of two scalar values: comparison with NULL is never true
    (three-valued logic collapsed to the rows a WHERE clause keeps), and
    values of the same storage class compare structurally.  Cross-class
    affinity conversions are not exercised by this layer's claims. -/
def sqlEq : Value → Value → Bool
  | .null, _ => false
  | _, .null => false
  | .int a, .int b => a == b
  | .text a, .text b => a == b
  | _, _ => false

/-- Result envelope of create_table. -/
structure CreateResult where
  status : String
  table : String
  columns : List (String × String)
  sql : String
deriving DecidableEq, Repr

/-- Result envelope of insert_record. -/
structure InsertResult where
  status : String
  record_id : Int
  data : List (String × Value)
  sql : String
deriving DecidableEq, Repr

/-- Result envelope of update_record. -/
structure UpdateResult where
  status : String
  record_id : Int
  data : List (String × Value)
  sql : String
deriving DecidableEq, Repr

/-- Result envelope of delete_record. -/
structure DeleteResult where
  status : String
  record_id : Int
  sql : String
deriving DecidableEq, Repr

/-- The create_table tool: builds CREATE TABLE IF NOT EXISTS name (col ty,
    ...), executes it and commits.  The engine rejects an empty column list
    (parse error, raised even when the table exists) and duplicate column
    names (checked only when the table is actually created: IF NOT EXISTS
    short-circuits first).  The stored catalog DDL drops the IF NOT EXISTS
    clause, as the engine does. -/
def create_table (db : DB) (table_name : String)
    (columns : List (String × String)) : Option (CreateResult × DB) :=
  let column_defs := columns.map (fun p => p.1 ++ " " ++ p.2)
  let sql := "CREATE TABLE IF NOT EXISTS " ++ table_name ++ " (" ++
    String.intercalate ", " column_defs ++ ")"
  if columns.isEmpty then none
  else
    let db2 :=
      if tableExists db table_name then some db
      else if distinctB (columns.map Prod.fst) then
        some (db ++ [(table_name,
          { columns := columns, rows := [],
            ddl := "CREATE TABLE " ++ table_name ++ " (" ++
              String.intercalate ", " column_defs ++ ")" })])
      else none
    db2.map (fun db3 =>
      ({ status := "success", table := table_name, columns := columns,
         sql := sql }, db3))

/-- Rowid the engine assigns to a newly inserted row: one more than the
    largest rowid currently in the table (1 for an empty table). -/
def nextRowid (t : Table) : Int :=
  (t.rows.map Prod.fst).foldr max 0 + 1

/-- Row stored by an INSERT that lists the columns of data: listed columns
    take the bound value, a missing INTEGER PRIMARY KEY column is filled
    with the assigned rowid (it aliases rowid), and every other missing
    column defaults to NULL.  Inserts that explicitly set an INTEGER
    PRIMARY KEY column are not exercised by the claims and keep the
    counter-assigned rowid here. -/
def buildInsertRow (cols : List (String × String))
    (data : List (String × Value)) (rid : Int) : Row :=
  cols.map (fun p =>
    match alookup data p.1 with
    | some v => (p.1, v)
    | none =>
      (p.1, if p.2 == "INTEGER PRIMARY KEY" then Value.int rid else Value.null))

/-- The insert_record tool: builds a parameterized INSERT INTO name (cols)
    VALUES (:col, ...), executes and commits.  The engine rejects an empty
    column list (parse error), a missing table and a data key naming no
    column of the table. -/
def insert_record (db : DB) (table_name : String)
    (data : List (String × Value)) : Option (InsertResult × DB) :=
  let columns := data.map Prod.fst
  let placeholders := columns.map (fun col => ":" ++ col)
  let sql := "INSERT INTO " ++ table_name ++ " (" ++
    String.intercalate ", " columns ++ ") VALUES (" ++
    String.intercalate ", " placeholders ++ ")"
  if data.isEmpty then none
  else
    match lookupTable db table_name with
    | none => none
    | some t =>
      if data.all (fun p => hasCol (t.columns.map Prod.fst) p.1) then
        let rid := nextRowid t
        let row := buildInsertRow t.columns data rid
        some ({ status := "success", record_id := rid, data := data,
                sql := sql },
          setFirst db table_name { t with rows := t.rows ++ [(rid, row)] })
      else none

/-- WHERE-clause test of the generated col = :col conditions, conjoined
    with AND: every filtered column's stored value must compare SQL-equal
    to the bound filter value. -/
def rowMatches (filters : List (String × Value)) (r : Row) : Bool :=
  filters.all (fun f =>
    match rowGet r f.1 with
    | some v => sqlEq v f.2
    | none => false)

/-- The get_records tool: SELECT * FROM name, with a WHERE clause appended
    when filters is a non-empty mapping (the source tests the dict for
    truthiness, so an empty dict behaves like no filters).  The engine
    rejects a missing table and a filter naming no column of the table. -/
def get_records (db : DB) (table_name : String)
    (filters : Option (List (String × Value))) : Option (List Row) :=
  match lookupTable db table_name with
  | none => none
  | some t =>
    match filters with
    | none => some (t.rows.map Prod.snd)
    | some fs =>
      if fs.isEmpty then some (t.rows.map Prod.snd)
      else if fs.all (fun f => hasCol (t.columns.map Prod.fst) f.1) then
        some ((t.rows.map Prod.snd).filter (fun r => rowMatches fs r))
      else none

/-- Statement text generated by update_record: one col = :col clause per
    data key, and the rowid bound under the parameter name record_id. -/
def update_record_sql (table_name : String)
    (data : List (String × Value)) : String :=
  let set_clauses := (data.map Prod.fst).map (fun col => col ++ " = :" ++ col)
  "UPDATE " ++ table_name ++ " SET " ++ String.intercalate ", " set_clauses ++
    " WHERE rowid = :record_id"

/-- Columns of a row rewritten by the SET clauses: every column listed in
    setCols takes the value bound under its parameter name in params. -/
def updatedRow (setCols : List String) (params : List (String × Value))
    (r : Row) : Row :=
  r.map (fun p =>
    if hasCol setCols p.1 then (p.1, (alookup params p.1).getD Value.null)
    else p)

/-- The update_record tool: builds UPDATE name SET col = :col, ... WHERE
    rowid = :record_id, binds params = data.copy() with
    params[record_id] = record_id (overwriting a data entry of that name),
    executes and commits.  The engine rejects an empty SET list (parse
    error), a missing table and a data key naming no column; a record_id
    matching no rowid updates zero rows and is not an error. -/
def update_record (db : DB) (table_name : String) (record_id : Int)
    (data : List (String × Value)) : Option (UpdateResult × DB) :=
  let sql := update_record_sql table_name data
  if data.isEmpty then none
  else
    match lookupTable db table_name with
    | none => none
    | some t =>
      if data.all (fun p => hasCol (t.columns.map Prod.fst) p.1) then
        let params := dictSet data "record_id" (Value.int record_id)
        let setCols := data.map Prod.fst
        let newRows := t.rows.map (fun p =>
          if p.1 == record_id then (p.1, updatedRow setCols params p.2) else p)
        some ({ status := "success", record_id := record_id, data := data,
                sql := sql },
          setFirst db table_name { t with rows := newRows })
      else none

/-- The delete_record tool: DELETE FROM name WHERE rowid = :record_id.
    The engine rejects a missing table; a record_id matching no rowid
    deletes zero rows and is not an error. -/
def delete_record (db : DB) (table_name : String) (record_id : Int) :
    Option (DeleteResult × DB) :=
  let sql := "DELETE FROM " ++ table_name ++ " WHERE rowid = :record_id"
  match lookupTable db table_name with
  | none => none
  | some t =>
    some ({ status := "success", record_id := record_id, sql := sql },
      setFirst db table_name
        { t with rows := t.rows.filter (fun p => !(p.1 == record_id)) })

/-- Prefix test on character lists. -/
def startsWithL : List Char → List Char → Bool
  | _, [] => true
  | [], _ :: _ => false
  | c :: cs, p :: ps => c == p && startsWithL cs ps

/-- Substring test on character lists. -/
def containsL : List Char → List Char → Bool
  | [], p => p.isEmpty
  | c :: cs, p => startsWithL (c :: cs) p || containsL cs p

/-- Substring test on strings, used by the engine's type-affinity rule. -/
def strContains (s pat : String) : Bool :=
  containsL s.data pat.data

/-- Rendered type name of a result column of CREATE TABLE ... AS SELECT:
    the engine derives it from the affinity of the selected column's
    declared type (so INTEGER PRIMARY KEY becomes plain INT and the rowid
    alias is lost in the copy). -/
def affinityName (ty : String) : String :=
  if strContains ty "INT" then "INT"
  else if strContains ty "CHAR" || strContains ty "CLOB" || strContains ty "TEXT" then "TEXT"
  else if ty == "" || strContains ty "BLOB" then "BLOB"
  else if strContains ty "REAL" || strContains ty "FLOA" || strContains ty "DOUB" then "REAL"
  else "NUM"

/-- Declared type of a column of a table (empty when absent). -/
def colTypeOf (t : Table) (c : String) : String :=
  ((alookup t.columns c).map id).getD ""

/-- Result-column naming of a SELECT with duplicate output names: the
    engine keeps the first occurrence and renames later ones by appending
    a colon and the number of earlier occurrences. -/
def dedupAux : List String → List String → List String
  | _, [] => []
  | seen, n :: rest =>
    let n2 := if hasCol seen n then n ++ ":" ++ toString (seen.count n) else n
    n2 :: dedupAux (n :: seen) rest

/-- Deduplicated output names of a SELECT, starting from no names seen. -/
def dedupNames (l : List String) : List String :=
  dedupAux [] l

/-- Rowids 1, 2, ... assigned to the rows of a freshly created table, in
    SELECT order. -/
def indexRows : Int → List Row → List (Int × Row)
  | _, [] => []
  | i, r :: rest => (i, r) :: indexRows (i + 1) rest

/-- Catalog DDL text the engine stores for a table after ALTER TABLE ...
    RENAME TO: the creation statement rewritten with the quoted new name.
    Identifier quoting of column names is not modelled; no proved property
    inspects this text beyond treating it as the stored DDL. -/
def renamedDdl (n : String) (cols : List (String × String)) : String :=
  "CREATE TABLE \"" ++ n ++ "\"(" ++
    String.intercalate "," (cols.map (fun q => q.1 ++ " " ++ q.2)) ++ ")"

/-- Table produced by CREATE TABLE newName AS SELECT sels FROM t, where
    each selection pairs a source column with its output name (a plain
    column reference or a col AS alias projection): affinity-derived column
    types, copied row values in SELECT order with freshly assigned rowids,
    and a synthesized creation DDL. -/
def createdTable (t : Table) (sels : List (String × String))
    (newName : String) : Table :=
  let outNames := dedupNames (sels.map Prod.snd)
  let newCols := outNames.zip
    (sels.map (fun s => affinityName (colTypeOf t s.1)))
  { columns := newCols,
    rows := indexRows 1 (t.rows.map (fun p =>
      outNames.zip (sels.map (fun s => (rowGet p.2 s.1).getD Value.null)))),
    ddl := "CREATE TABLE " ++ newName ++ "(" ++
      String.intercalate "," (newCols.map (fun q => q.1 ++ " " ++ q.2)) ++ ")" }

/-- Engine execution of CREATE TABLE newName AS SELECT sels FROM srcName:
    rejects an empty selection list (parse error), an existing target
    table, a missing source table and a selection naming no column of the
    source; otherwise appends the created table to the catalog. -/
def createTableAs (db : DB) (newName srcName : String)
    (sels : List (String × String)) : Option DB :=
  if sels.isEmpty then none
  else if tableExists db newName then none
  else
    match lookupTable db srcName with
    | none => none
    | some t =>
      if sels.all (fun s => hasCol (t.columns.map Prod.fst) s.1) then
        some (db ++ [(newName, createdTable t sels newName)])
      else none

/-- Engine execution of DROP TABLE name (without IF EXISTS): rejects a
    missing table, otherwise removes it from the catalog. -/
def dropTableExec (db : DB) (table_name : String) : Option DB :=
  if tableExists db table_name then some (removeFirst db table_name)
  else none

/-- Rename the first catalog entry with the given name, keeping its
    position and rewriting its stored DDL. -/
def renameKeyFirst : DB → String → String → DB
  | [], _, _ => []
  | p :: rest, o, n =>
    if p.1 == o then (n, { p.2 with ddl := renamedDdl n p.2.columns }) :: rest
    else p :: renameKeyFirst rest o n

/-- Engine execution of ALTER TABLE oldName RENAME TO newName: rejects a
    missing source and an existing target. -/
def renameTableExec (db : DB) (oldName newName : String) : Option DB :=
  match lookupTable db oldName with
  | none => none
  | some _ =>
    if tableExists db newName then none
    else some (renameKeyFirst db oldName newName)

/-- Column names reported by PRAGMA table_info(name); an empty list for a
    missing table. -/
def pragmaTableInfo (db : DB) (table_name : String) : List String :=
  match lookupTable db table_name with
  | none => []
  | some t => t.columns.map Prod.fst

/-- The shared copy-rebuild sequence of drop_column and rename_column:
    create name_new AS SELECT sels FROM name, drop name, rename name_new
    back to name.  Committed only at the end; intermediate states are not
    observable through this layer's per-call interface. -/
def copyRebuild (db : DB) (table_name : String)
    (sels : List (String × String)) : Option DB :=
  let temp_table := table_name ++ "_new"
  match createTableAs db temp_table table_name sels with
  | none => none
  | some dbA =>
    match dropTableExec dbA table_name with
    | none => none
    | some dbB => renameTableExec dbB temp_table table_name

/-- The drop_column tool: introspects the column list, filters out the
    target column, runs the copy-rebuild sequence and returns a
    synthesized ALTER TABLE ... DROP COLUMN ... string (not the statements
    actually executed). -/
def drop_column (db : DB) (table_name column_name : String) :
    Option (String × DB) :=
  let cols := pragmaTableInfo db table_name
  let columns := cols.filter (fun c => !(c == column_name))
  (copyRebuild db table_name (columns.map (fun c => (c, c)))).map
    (fun db2 =>
      ("ALTER TABLE " ++ table_name ++ " DROP COLUMN " ++ column_name, db2))

/-- The rename_column tool: introspects the column list, projects the old
    column as old AS new and every other column as itself, runs the
    copy-rebuild sequence and returns a synthesized ALTER TABLE ... RENAME
    COLUMN ... string. -/
def rename_column (db : DB) (table_name old_name new_name : String) :
    Option (String × DB) :=
  let cols := pragmaTableInfo db table_name
  let sels := cols.map (fun c =>
    if c == old_name then (c, new_name) else (c, c))
  (copyRebuild db table_name sels).map
    (fun db2 =>
      ("ALTER TABLE " ++ table_name ++ " RENAME COLUMN " ++ old_name ++
        " TO " ++ new_name, db2))

/-- The get_schema tool: lists all table names from the catalog, fetches
    the stored creation DDL of each by name, and joins them with a
    semicolon and newline separator. -/
def get_schema (db : DB) : String :=
  let tables := db.map Prod.fst
  let schemas := tables.map (fun tb =>
    match lookupTable db tb with
    | some t => t.ddl
    | none => "")
  String.intercalate ";\n" schemas

/-- Projection of the rows of a table to the named columns, the shape in
    which data preservation across the copy-rebuild sequence is compared. -/
def rowsData (t : Table) (cols : List String) : List (List (Option Value)) :=
  t.rows.map (fun p => cols.map (fun c => rowGet p.2 c))

/-- Modelled from the spec: a row matches a filter mapping when its stored
    value equals the filter value in every filtered column, under plain
    value equality as the specification words it; used only to compare the
    specified semantics against the generated SQL comparison. -/
def specRowMatches (filters : List (String × Value)) (r : Row) : Bool :=
  filters.all (fun f => rowGet r f.1 == some f.2)

/-- Modelled from the spec: the update statement text the specification
    describes, with positional question-mark placeholders, used only to
    compare the specified text against the generated one. -/
def spec_update_record_sql (table_name : String) (cols : List String) :
    String :=
  "UPDATE " ++ table_name ++ " SET " ++
    String.intercalate ", " (cols.map (fun c => c ++ " = ?")) ++
    " WHERE rowid = ?"

lemma hasCol_iff (l : List String) (a : String) : hasCol l a = true ↔ a ∈ l := by
  unfold hasCol
  simp [List.any_eq_true, beq_iff_eq]

lemma hasCol_eq_false_iff (l : List String) (a : String) :
    hasCol l a = false ↔ a ∉ l := by
  constructor
  · intro h hmem
    rw [(hasCol_iff l a).mpr hmem] at h
    cases h
  · intro h
    cases hc : hasCol l a with
    | false => rfl
    | true => exact absurd ((hasCol_iff l a).mp hc) h

lemma distinctB_cons_iff (x : String) (xs : List String) :
    distinctB (x :: xs) = true ↔ (x ∉ xs ∧ distinctB xs = true) := by
  simp [distinctB, hasCol_eq_false_iff]

lemma alookup_append_left {α : Type} (l1 l2 : List (String × α)) (k : String)
    (v : α) (h : alookup l1 k = some v) : alookup (l1 ++ l2) k = some v := by
  induction l1 with
  | nil => simp [alookup] at h
  | cons p rest ih =>
    by_cases hp : p.1 == k
    · simp [alookup, hp] at h ⊢
      exact h
    · simp [alookup, hp] at h ⊢
      exact ih h

lemma alookup_append_none {α : Type} (l1 l2 : List (String × α)) (k : String)
    (h : alookup l1 k = none) : alookup (l1 ++ l2) k = alookup l2 k := by
  induction l1 with
  | nil => simp
  | cons p rest ih =>
    by_cases hp : p.1 == k
    · simp [alookup, hp] at h
    · simp [alookup, hp] at h ⊢
      exact ih h

lemma beq_false_of_ne {α : Type} [BEq α] [LawfulBEq α] {a b : α}
    (h : a ≠ b) : (a == b) = false := by
  cases hab : a == b with
  | false => rfl
  | true => exact absurd (beq_iff_eq.mp hab) h

lemma alookup_eq_none_iff {α : Type} (l : List (String × α)) (k : String) :
    alookup l k = none ↔ k ∉ l.map Prod.fst := by
  induction l with
  | nil => simp [alookup]
  | cons p rest ih =>
    obtain ⟨a, b⟩ := p
    by_cases hp : a = k
    · subst hp
      simp [alookup]
    · rw [List.map_cons]
      rw [show alookup ((a, b) :: rest) k = alookup rest k by
        simp [alookup, beq_false_of_ne hp]]
      rw [ih]
      constructor
      · intro hn hmem
        rcases List.mem_cons.mp hmem with he | he
        · exact hp he.symm
        · exact hn he
      · intro hn hmem
        exact hn (List.mem_cons_of_mem a hmem)

lemma alookup_isSome_iff {α : Type} (l : List (String × α)) (k : String) :
    (alookup l k).isSome = true ↔ k ∈ l.map Prod.fst := by
  constructor
  · intro hs
    by_contra hmem
    rw [(alookup_eq_none_iff l k).mpr hmem] at hs
    cases hs
  · intro hm
    cases ha : alookup l k with
    | none => exact absurd ((alookup_eq_none_iff l k).mp ha) (by simp [hm])
    | some w => rfl

lemma setFirst_of_alookup {α : Type} (l : List (String × α)) (k : String)
    (v : α) (h : alookup l k = some v) : setFirst l k v = l := by
  induction l with
  | nil => simp [alookup] at h
  | cons p rest ih =>
    obtain ⟨a, b⟩ := p
    by_cases hp : a = k
    · subst hp
      simp [alookup] at h
      simp [setFirst, ← h]
    · simp [alookup, beq_false_of_ne hp] at h
      simp [setFirst, beq_false_of_ne hp, ih h]

lemma alookup_setFirst_self {α : Type} (l : List (String × α)) (k : String)
    (v w : α) (h : alookup l k = some v) :
    alookup (setFirst l k w) k = some w := by
  induction l with
  | nil => simp [alookup] at h
  | cons p rest ih =>
    by_cases hp : p.1 == k
    · simp [setFirst, hp, alookup]
    · simp [alookup, hp] at h
      simp [setFirst, hp, alookup, ih h]

lemma alookup_setFirst_other {α : Type} (l : List (String × α)) (k j : String)
    (w : α) (h : j ≠ k) : alookup (setFirst l k w) j = alookup l j := by
  induction l with
  | nil => simp [setFirst]
  | cons p rest ih =>
    by_cases hp : p.1 == k
    · rw [beq_iff_eq] at hp
      have hkj : (k == j) = false := by
        cases hkj : k == j with
        | false => rfl
        | true =>
          rw [beq_iff_eq] at hkj
          exact absurd hkj.symm h
      simp [setFirst, hp, alookup, hkj]
    · simp [setFirst, hp, alookup, ih]

lemma alookup_dictSet_self {α : Type} (d : List (String × α)) (k : String)
    (v : α) : alookup (dictSet d k v) k = some v := by
  unfold dictSet
  cases hd : alookup d k with
  | none =>
    simp [hd]
    rw [alookup_append_none d [(k, v)] k hd]
    simp [alookup]
  | some w =>
    simp [hd]
    exact alookup_setFirst_self d k w v hd

lemma removeFirst_append_of_mem {α : Type} (l1 l2 : List (String × α))
    (k : String) (h : k ∈ l1.map Prod.fst) :
    removeFirst (l1 ++ l2) k = removeFirst l1 k ++ l2 := by
  induction l1 with
  | nil => simp at h
  | cons p rest ih =>
    by_cases hp : p.1 == k
    · simp [removeFirst, hp]
    · have hne : p.1 ≠ k := by
        intro he
        rw [he] at hp
        simp at hp
      simp [removeFirst, hp]
      apply ih
      rw [List.map_cons] at h
      rcases List.mem_cons.mp h with he | he
      · exact absurd he.symm hne
      · exact he

lemma alookup_removeFirst_of_none {α : Type} (l : List (String × α))
    (k j : String) (h : alookup l k = none) :
    alookup (removeFirst l j) k = none := by
  induction l with
  | nil => simp [removeFirst, alookup]
  | cons p rest ih =>
    by_cases hp : p.1 == k
    · simp [alookup, hp] at h
    · by_cases hj : p.1 == j
      · simp [removeFirst, hj]
        simp [alookup, hp] at h
        exact h
      · simp [alookup, hp] at h
        simp [removeFirst, hj, alookup, hp]
        exact ih h

lemma alookup_removeFirst_self {α : Type} (l : List (String × α)) (k : String)
    (h : distinctB (l.map Prod.fst) = true) :
    alookup (removeFirst l k) k = none := by
  induction l with
  | nil => simp [removeFirst, alookup]
  | cons p rest ih =>
    rw [List.map_cons, distinctB_cons_iff] at h
    by_cases hp : p.1 == k
    · rw [beq_iff_eq] at hp
      simp [removeFirst, hp]
      rw [alookup_eq_none_iff]
      rw [hp] at h
      exact h.1
    · simp [removeFirst, hp, alookup, hp]
      exact ih h.2

lemma renameKeyFirst_append_of_none (l1 : List (String × Table)) (o n : String)
    (t : Table) (h : alookup l1 o = none) :
    renameKeyFirst (l1 ++ [(o, t)]) o n =
      l1 ++ [(n, { t with ddl := renamedDdl n t.columns })] := by
  induction l1 with
  | nil => simp [renameKeyFirst]
  | cons p rest ih =>
    by_cases hp : p.1 == o
    · simp [alookup, hp] at h
    · simp [alookup, hp] at h
      simp [renameKeyFirst, hp, ih h]

lemma rowGet_cons_self (a : String) (b : Value) (r : Row) :
    rowGet ((a, b) :: r) a = some b := by
  simp [rowGet, alookup]

lemma rowGet_cons_ne (a : String) (b : Value) (r : Row) (c : String)
    (h : a ≠ c) : rowGet ((a, b) :: r) c = rowGet r c := by
  simp [rowGet, alookup, beq_false_of_ne h]

lemma updatedRow_cons (setCols : List String)
    (params : List (String × Value)) (a : String) (b : Value) (rest : Row) :
    updatedRow setCols params ((a, b) :: rest) =
      (if hasCol setCols a then (a, (alookup params a).getD Value.null)
       else (a, b)) :: updatedRow setCols params rest := by
  simp only [updatedRow, List.map_cons]

lemma rowGet_updatedRow (setCols : List String)
    (params : List (String × Value)) (r : Row) (c : String) :
    rowGet (updatedRow setCols params r) c =
      (rowGet r c).map (fun v =>
        if hasCol setCols c then (alookup params c).getD Value.null else v) := by
  induction r with
  | nil => simp [updatedRow, rowGet, alookup]
  | cons p rest ih =>
    obtain ⟨a, b⟩ := p
    rw [updatedRow_cons]
    cases hc : hasCol setCols a with
    | true =>
      by_cases hak : a = c
      · subst hak
        rw [if_pos rfl, rowGet_cons_self, rowGet_cons_self]
        simp [hc]
      · rw [if_pos rfl, rowGet_cons_ne a _ _ c hak, rowGet_cons_ne a b rest c hak]
        exact ih
    | false =>
      rw [if_neg (by simp)]
      by_cases hak : a = c
      · subst hak
        rw [rowGet_cons_self, rowGet_cons_self]
        simp [hc]
      · rw [rowGet_cons_ne a b _ c hak, rowGet_cons_ne a b rest c hak]
        exact ih

lemma rowGet_some_of_keys (r : Row) (cols : List String) (c : String)
    (hk : r.map Prod.fst = cols) (hc : c ∈ cols) :
    ∃ v, rowGet r c = some v := by
  induction r generalizing cols with
  | nil =>
    rw [← hk] at hc
    simp at hc
  | cons p rest ih =>
    obtain ⟨a, b⟩ := p
    rw [List.map_cons] at hk
    rw [← hk] at hc
    by_cases hak : a = c
    · subst hak
      exact ⟨b, by simp [rowGet, alookup]⟩
    · rcases List.mem_cons.mp hc with he | he
      · exact absurd he.symm hak
      · rcases ih (rest.map Prod.fst) rfl he with ⟨v, hv⟩
        exact ⟨v, by
          rw [show rowGet ((a, b) :: rest) c = rowGet rest c by
            simp [rowGet, alookup, beq_false_of_ne hak]]
          exact hv⟩

lemma alookup_map_pair {α : Type} (xs : List α) (g : α → String)
    (f : α → Value) (x : α) (hnd : distinctB (xs.map g) = true)
    (hx : x ∈ xs) :
    alookup (xs.map (fun y => (g y, f y))) (g x) = some (f x) := by
  induction xs with
  | nil => simp at hx
  | cons y rest ih =>
    rw [List.map_cons, distinctB_cons_iff] at hnd
    rcases List.mem_cons.mp hx with he | he
    · subst he
      simp [alookup]
    · by_cases hg : g y = g x
      · exfalso
        exact hnd.1 (hg ▸ List.mem_map_of_mem g he)
      · rw [List.map_cons]
        rw [show alookup ((g y, f y) :: List.map (fun y => (g y, f y)) rest)
            (g x) = alookup (List.map (fun y => (g y, f y)) rest) (g x) by
          simp [alookup, beq_false_of_ne hg]]
        exact ih hnd.2 he

lemma dedupAux_of_fresh (l seen : List String)
    (hfresh : ∀ x ∈ l, hasCol seen x = false) (hnd : distinctB l = true) :
    dedupAux seen l = l := by
  induction l generalizing seen with
  | nil => simp [dedupAux]
  | cons n rest ih =>
    rw [distinctB_cons_iff] at hnd
    simp only [dedupAux]
    rw [hfresh n (List.mem_cons_self n rest)]
    have hf2 : ∀ x ∈ rest, hasCol (n :: seen) x = false := by
      intro x hx
      rw [hasCol_eq_false_iff]
      intro hmem
      rcases List.mem_cons.mp hmem with he | he
      · exact hnd.1 (he ▸ hx)
      · have hfx := hfresh x (List.mem_cons_of_mem n hx)
        rw [hasCol_eq_false_iff] at hfx
        exact hfx he
    rw [if_neg (by simp), ih (n :: seen) hf2 hnd.2]

lemma dedupNames_of_distinct (l : List String) (hnd : distinctB l = true) :
    dedupNames l = l := by
  unfold dedupNames
  exact dedupAux_of_fresh l [] (fun x _ => by simp [hasCol]) hnd

lemma indexRows_map_snd {β : Type} (l : List Row) (i : Int) (h : Row → β) :
    (indexRows i l).map (fun p => h p.2) = l.map h := by
  induction l generalizing i with
  | nil => simp [indexRows]
  | cons r rest ih => simp [indexRows, ih]

lemma zip_map_pair {α β γ : Type} (xs : List α) (g : α → β) (f : α → γ) :
    (xs.map g).zip (xs.map f) = xs.map (fun x => (g x, f x)) := by
  induction xs with
  | nil => simp
  | cons x rest ih => simp [ih]

lemma map_congr_mem {α β : Type} (l : List α) (f g : α → β)
    (h : ∀ a ∈ l, f a = g a) : l.map f = l.map g := by
  induction l with
  | nil => simp
  | cons x rest ih =>
    rw [List.map_cons, List.map_cons, h x (List.mem_cons_self x rest),
      ih (fun a ha => h a (List.mem_cons_of_mem x ha))]

lemma ne_append_new (s : String) : s ≠ s ++ "_new" := by
  intro h
  have hl := congrArg String.length h
  rw [String.length_append] at hl
  have h4 : ("_new" : String).length = 4 := by decide
  omega

lemma createdTable_columns_names (t : Table) (sels : List (String × String))
    (nm : String) (hnd : distinctB (sels.map Prod.snd) = true) :
    (createdTable t sels nm).columns.map Prod.fst = sels.map Prod.snd := by
  simp only [createdTable]
  rw [dedupNames_of_distinct _ hnd]
  rw [List.map_fst_zip]
  simp

lemma rowsData_ddl_congr (t : Table) (d : String) (Q : List String) :
    rowsData { t with ddl := d } Q = rowsData t Q := by
  simp [rowsData]

lemma rowsData_createdTable (t : Table) (sels : List (String × String))
    (nm : String) (hnd : distinctB (sels.map Prod.snd) = true)
    (hwt : ∀ r ∈ t.rows, r.2.map Prod.fst = t.columns.map Prod.fst)
    (hsrc : ∀ s ∈ sels, s.1 ∈ t.columns.map Prod.fst) :
    rowsData (createdTable t sels nm) (sels.map Prod.snd) =
      t.rows.map (fun p => sels.map (fun s => rowGet p.2 s.1)) := by
  simp only [rowsData, createdTable]
  rw [dedupNames_of_distinct _ hnd]
  rw [indexRows_map_snd
    (t.rows.map (fun p => (sels.map Prod.snd).zip
      (sels.map (fun s => (rowGet p.2 s.1).getD Value.null)))) 1
    (fun r => (sels.map Prod.snd).map (fun c => rowGet r c))]
  rw [List.map_map]
  apply map_congr_mem
  intro p hp
  simp only [Function.comp]
  rw [zip_map_pair sels Prod.snd
    (fun s => (rowGet p.2 s.1).getD Value.null)]
  rw [List.map_map]
  apply map_congr_mem
  intro s hs
  simp only [Function.comp, rowGet]
  rw [alookup_map_pair sels Prod.snd
    (fun x => (alookup p.2 x.1).getD Value.null) s hnd hs]
  rcases rowGet_some_of_keys p.2 (t.columns.map Prod.fst) s.1 (hwt p hp)
    (hsrc s hs) with ⟨v, hv⟩
  simp only [rowGet] at hv
  rw [hv]
  rfl

lemma isEmpty_false_of_ne_nil {α : Type} (l : List α) (h : l ≠ []) :
    l.isEmpty = false := by
  cases l with
  | nil => exact absurd rfl h
  | cons x rest => rfl

lemma copyRebuild_spec (db : DB) (tn : String) (sels : List (String × String))
    (t : Table) (hwf : DBWF db) (ht : lookupTable db tn = some t)
    (htmp : tableExists db (tn ++ "_new") = false) (hne : sels ≠ [])
    (hsrc : sels.all (fun s => hasCol (t.columns.map Prod.fst) s.1) = true) :
    copyRebuild db tn sels =
      some (removeFirst db tn ++
        [(tn, { createdTable t sels (tn ++ "_new") with
                ddl := renamedDdl tn
                  (createdTable t sels (tn ++ "_new")).columns })]) := by
  have htmpn : alookup db (tn ++ "_new") = none := by
    unfold tableExists lookupTable at htmp
    cases ha : alookup db (tn ++ "_new") with
    | none => rfl
    | some w => rw [ha] at htmp; cases htmp
  have hmem : tn ∈ db.map Prod.fst :=
    (alookup_isSome_iff db tn).mp
      (by rw [show alookup db tn = some t from ht]; rfl)
  have hca : createTableAs db (tn ++ "_new") tn sels =
      some (db ++ [(tn ++ "_new", createdTable t sels (tn ++ "_new"))]) := by
    simp only [createTableAs, isEmpty_false_of_ne_nil sels hne, htmp, ht, hsrc]
    simp
  have hdrop : dropTableExec
      (db ++ [(tn ++ "_new", createdTable t sels (tn ++ "_new"))]) tn =
      some (removeFirst db tn ++
        [(tn ++ "_new", createdTable t sels (tn ++ "_new"))]) := by
    have hex : tableExists
        (db ++ [(tn ++ "_new", createdTable t sels (tn ++ "_new"))]) tn =
        true := by
      unfold tableExists lookupTable
      rw [alookup_append_left db _ tn t ht]
      rfl
    simp only [dropTableExec, hex, if_true]
    rw [removeFirst_append_of_mem db _ tn hmem]
  have hrem : alookup (removeFirst db tn) (tn ++ "_new") = none :=
    alookup_removeFirst_of_none db (tn ++ "_new") tn htmpn
  have hlook : lookupTable (removeFirst db tn ++
      [(tn ++ "_new", createdTable t sels (tn ++ "_new"))]) (tn ++ "_new") =
      some (createdTable t sels (tn ++ "_new")) := by
    unfold lookupTable
    rw [alookup_append_none _ _ _ hrem]
    simp [alookup]
  have hnex : tableExists (removeFirst db tn ++
      [(tn ++ "_new", createdTable t sels (tn ++ "_new"))]) tn = false := by
    unfold tableExists lookupTable
    rw [alookup_append_none _ _ _ (alookup_removeFirst_self db tn hwf)]
    rw [show alookup [(tn ++ "_new", createdTable t sels (tn ++ "_new"))] tn
        = none by
      simp [alookup, beq_false_of_ne (fun h => ne_append_new tn h.symm)]]
    rfl
  have hren : renameTableExec (removeFirst db tn ++
      [(tn ++ "_new", createdTable t sels (tn ++ "_new"))]) (tn ++ "_new")
      tn =
      some (removeFirst db tn ++
        [(tn, { createdTable t sels (tn ++ "_new") with
                ddl := renamedDdl tn
                  (createdTable t sels (tn ++ "_new")).columns })]) := by
    simp only [renameTableExec, hlook, hnex]
    simp only [Bool.false_eq_true, if_false]
    rw [renameKeyFirst_append_of_none (removeFirst db tn) (tn ++ "_new") tn
      (createdTable t sels (tn ++ "_new")) hrem]
  simp only [copyRebuild, hca, hdrop, hren]

lemma lookupTable_rebuilt (db : DB) (tn : String) (T : Table)
    (hwf : DBWF db) :
    lookupTable (removeFirst db tn ++ [(tn, T)]) tn = some T := by
  unfold lookupTable
  rw [alookup_append_none _ _ _ (alookup_removeFirst_self db tn hwf)]
  simp [alookup]

lemma alookup_mem_of_distinct {α : Type} (l : List (String × α))
    (h : distinctB (l.map Prod.fst) = true) (p : String × α) (hp : p ∈ l) :
    alookup l p.1 = some p.2 := by
  induction l with
  | nil => simp at hp
  | cons q rest ih =>
    rw [List.map_cons, distinctB_cons_iff] at h
    rcases List.mem_cons.mp hp with he | he
    · subst he
      simp [alookup]
    · have hne : q.1 ≠ p.1 := by
        intro hq
        exact h.1 (hq ▸ List.mem_map_of_mem Prod.fst he)
      rw [show alookup (q :: rest) p.1 = alookup rest p.1 by
        simp [alookup, beq_false_of_ne hne]]
      exact ih h.2 he

lemma schemas_of_names (all db : DB)
    (hsub : ∀ p ∈ db, alookup all p.1 = some p.2) :
    (db.map Prod.fst).map (fun tb =>
      match lookupTable all tb with
      | some t => t.ddl
      | none => "") = db.map (fun p => p.2.ddl) := by
  induction db with
  | nil => simp
  | cons p rest ih =>
    rw [List.map_cons, List.map_cons, List.map_cons]
    rw [show lookupTable all p.1 = some p.2 from
      hsub p (List.mem_cons_self p rest)]
    rw [ih (fun q hq => hsub q (List.mem_cons_of_mem p hq))]

/-- C1: creating a table with columns id, name, age, inserting the record
    name John Doe, age 30 and reading all records yields exactly one row
    whose name and age equal the inserted values. -/
theorem insert_get_round_trip :
    ((create_table [] "test_table"
        [("id", "INTEGER PRIMARY KEY"), ("name", "TEXT"),
         ("age", "INTEGER")]).bind
      (fun r1 => (insert_record r1.2 "test_table"
          [("name", Value.text "John Doe"), ("age", Value.int 30)]).bind
        (fun r2 => get_records r2.2 "test_table" none))).map
      (fun rows => (rows.length,
        rows.head?.bind (fun r => rowGet r "name"),
        rows.head?.bind (fun r => rowGet r "age"))) =
    some (1, some (Value.text "John Doe"), some (Value.int 30)) := by
  decide

/-- C7 counterexample: the sql field of the update_record envelope is not
    the question-mark placeholder text the claim states; at a concrete call
    it is the named-placeholder text UPDATE users SET age = :age WHERE
    rowid = :record_id. -/
theorem update_record_sql_cex :
    (update_record
        [("users", { columns := [("age", "INTEGER")],
                     rows := [(1, [("age", Value.int 30)])],
                     ddl := "CREATE TABLE users (age INTEGER)" })]
        "users" 1 [("age", Value.int 31)]).map (fun p => p.1.sql) =
      some "UPDATE users SET age = :age WHERE rowid = :record_id" ∧
    spec_update_record_sql "users" ["age"] ≠
      "UPDATE users SET age = :age WHERE rowid = :record_id" := by
  constructor
  · decide
  · decide

/-- C7 (amended): the sql field of every successful update_record envelope
    is the text UPDATE name SET col1 = :col1, ... WHERE rowid = :record_id,
    one named col = :col clause per data key, values bound as parameters
    rather than interpolated. -/
theorem update_record_sql_named_placeholders (db : DB) (table_name : String)
    (record_id : Int) (data : List (String × Value)) (res : UpdateResult)
    (db2 : DB) (h : update_record db table_name record_id data = some (res, db2)) :
    res.sql = "UPDATE " ++ table_name ++ " SET " ++
      String.intercalate ", "
        ((data.map Prod.fst).map (fun col => col ++ " = :" ++ col)) ++
      " WHERE rowid = :record_id" := by
  simp only [update_record] at h
  split at h
  · cases h
  · split at h
    · cases h
    · split at h
      · injection h with h1
        injection h1 with h2 h3
        rw [← h2]
        rfl
      · cases h

/-- C7 witness. -/
theorem update_record_sql_named_placeholders_witness :
    update_record
        [("users", { columns := [("age", "INTEGER")],
                     rows := [(1, [("age", Value.int 30)])],
                     ddl := "CREATE TABLE users (age INTEGER)" })]
        "users" 1 [("age", Value.int 31)] =
      some ({ status := "success", record_id := 1,
              data := [("age", Value.int 31)],
              sql := "UPDATE users SET age = :age WHERE rowid = :record_id" },
        [("users", { columns := [("age", "INTEGER")],
                     rows := [(1, [("age", Value.int 31)])],
                     ddl := "CREATE TABLE users (age INTEGER)" })]) ∧
    ({ status := "success", record_id := 1,
       data := [("age", Value.int 31)],
       sql := "UPDATE users SET age = :age WHERE rowid = :record_id" } :
      UpdateResult).sql =
      "UPDATE " ++ "users" ++ " SET " ++
        String.intercalate ", "
          ((([("age", Value.int 31)] : List (String × Value)).map
            Prod.fst).map (fun col => col ++ " = :" ++ col)) ++
        " WHERE rowid = :record_id" := by
  constructor
  · decide
  · exact update_record_sql_named_placeholders
      [("users", { columns := [("age", "INTEGER")],
                   rows := [(1, [("age", Value.int 30)])],
                   ddl := "CREATE TABLE users (age INTEGER)" })]
      "users" 1 [("age", Value.int 31)]
      { status := "success", record_id := 1,
        data := [("age", Value.int 31)],
        sql := "UPDATE users SET age = :age WHERE rowid = :record_id" }
      [("users", { columns := [("age", "INTEGER")],
                   rows := [(1, [("age", Value.int 31)])],
                   ddl := "CREATE TABLE users (age INTEGER)" })]
      (by decide)

/-- C8: get_schema returns the stored creation DDL of every table in the
    catalog, joined with a semicolon-newline separator in catalog order,
    and the empty string on an empty database. -/
theorem get_schema_ddl_concat :
    (∀ db : DB, DBWF db →
      get_schema db = String.intercalate ";\n" (db.map (fun p => p.2.ddl))) ∧
    get_schema [] = "" := by
  constructor
  · intro db hwf
    simp only [get_schema]
    rw [schemas_of_names db db
      (fun p hp => alookup_mem_of_distinct db hwf p hp)]
  · rfl

/-- C8 witness. -/
theorem get_schema_ddl_concat_witness :
    DBWF [("a", { columns := [("x", "INTEGER")], rows := [],
                  ddl := "CREATE TABLE a (x INTEGER)" }),
          ("b", { columns := [("y", "TEXT")], rows := [],
                  ddl := "CREATE TABLE b (y TEXT)" })] ∧
    get_schema [("a", { columns := [("x", "INTEGER")], rows := [],
                        ddl := "CREATE TABLE a (x INTEGER)" }),
                ("b", { columns := [("y", "TEXT")], rows := [],
                        ddl := "CREATE TABLE b (y TEXT)" })] =
      "CREATE TABLE a (x INTEGER);\nCREATE TABLE b (y TEXT)" := by
  constructor
  · decide
  · rw [get_schema_ddl_concat.1 _ (by decide)]
    decide

/-- C2 counterexample: calling create_table with an empty column mapping
    does not return a success envelope; the generated statement CREATE
    TABLE IF NOT EXISTS t () is a parse error the engine raises, so neither
    of two identical calls reports success. -/
theorem create_table_empty_columns_cex :
    create_table ([] : DB) "t" [] = none := by
  decide

/-- C2 (amended): for every table name and nonempty column mapping (dict
    keys are distinct), calling create_table twice with the same arguments
    succeeds both times, both envelopes have status success, and the second
    call leaves the catalog exactly as the first call left it. -/
theorem create_table_idempotent (db : DB) (table_name : String)
    (columns : List (String × String)) (hne : columns ≠ [])
    (hnd : distinctB (columns.map Prod.fst) = true) :
    ∃ r1 db1 r2, create_table db table_name columns = some (r1, db1) ∧
      create_table db1 table_name columns = some (r2, db1) ∧
      r1.status = "success" ∧ r2.status = "success" := by
  have hie := isEmpty_false_of_ne_nil columns hne
  cases htex : tableExists db table_name with
  | true =>
    refine ⟨⟨"success", table_name, columns,
        "CREATE TABLE IF NOT EXISTS " ++ table_name ++ " (" ++
          String.intercalate ", "
            (columns.map (fun p => p.1 ++ " " ++ p.2)) ++ ")"⟩,
      db,
      ⟨"success", table_name, columns,
        "CREATE TABLE IF NOT EXISTS " ++ table_name ++ " (" ++
          String.intercalate ", "
            (columns.map (fun p => p.1 ++ " " ++ p.2)) ++ ")"⟩,
      ?_, ?_, rfl, rfl⟩
    · simp only [create_table, hie, htex]
      simp
    · simp only [create_table, hie, htex]
      simp
  | false =>
    have htex2 : tableExists (db ++ [(table_name,
        { columns := columns, rows := [],
          ddl := "CREATE TABLE " ++ table_name ++ " (" ++
            String.intercalate ", "
              (columns.map (fun p => p.1 ++ " " ++ p.2)) ++ ")" })])
        table_name = true := by
      unfold tableExists lookupTable
      have hnone : alookup db table_name = none := by
        unfold tableExists lookupTable at htex
        cases ha : alookup db table_name with
        | none => rfl
        | some w => rw [ha] at htex; cases htex
      rw [alookup_append_none _ _ _ hnone]
      simp [alookup]
    refine ⟨⟨"success", table_name, columns,
        "CREATE TABLE IF NOT EXISTS " ++ table_name ++ " (" ++
          String.intercalate ", "
            (columns.map (fun p => p.1 ++ " " ++ p.2)) ++ ")"⟩,
      db ++ [(table_name,
        ⟨columns, [],
          "CREATE TABLE " ++ table_name ++ " (" ++
            String.intercalate ", "
              (columns.map (fun p => p.1 ++ " " ++ p.2)) ++ ")"⟩)],
      ⟨"success", table_name, columns,
        "CREATE TABLE IF NOT EXISTS " ++ table_name ++ " (" ++
          String.intercalate ", "
            (columns.map (fun p => p.1 ++ " " ++ p.2)) ++ ")"⟩,
      ?_, ?_, rfl, rfl⟩
    · simp only [create_table, hie, htex, hnd]
      simp
    · simp only [create_table, hie, htex2]
      simp

/-- C2 witness. -/
theorem create_table_idempotent_witness :
    ([("id", "INTEGER")] : List (String × String)) ≠ [] ∧
    distinctB (([("id", "INTEGER")] :
      List (String × String)).map Prod.fst) = true ∧
    ∃ r1 db1 r2,
      create_table ([] : DB) "t" [("id", "INTEGER")] = some (r1, db1) ∧
      create_table db1 "t" [("id", "INTEGER")] = some (r2, db1) ∧
      r1.status = "success" ∧ r2.status = "success" := by
  refine ⟨by decide, by decide, ?_⟩
  exact create_table_idempotent [] "t" [("id", "INTEGER")]
    (by decide) (by decide)

lemma filter_rowMatches_nil (l : List Row) :
    l.filter (fun r => rowMatches [] r) = l := by
  induction l with
  | nil => rfl
  | cons r rest ih =>
    rw [show List.filter (fun r => rowMatches [] r) (r :: rest) =
        r :: List.filter (fun r => rowMatches [] r) rest by
      simp [List.filter, rowMatches]]
    rw [ih]

/-- C3 counterexample: on a table whose single row holds NULL in column a,
    the filter mapping a = NULL matches the row under the claim's value
    equality, yet get_records returns the empty list, because the generated
    SQL comparison a = :a is never true when either side is NULL. -/
theorem get_records_null_filter_cex :
    get_records
        [("t", { columns := [("a", "TEXT")],
                 rows := [(1, [("a", Value.null)])],
                 ddl := "CREATE TABLE t (a TEXT)" })]
        "t" (some [("a", Value.null)]) = some [] ∧
    specRowMatches [("a", Value.null)] [("a", Value.null)] = true := by
  constructor
  · decide
  · decide

/-- C3 (amended): for filters over existing columns, get_records returns
    exactly the rows that SQL-match every filter pair conjoined with AND,
    where a comparison against NULL on either side never matches; omitting
    filters (or passing an empty mapping) returns all rows in order; and
    when no row matches the result is the empty list, not an error. -/
theorem get_records_filter_semantics (db : DB) (table_name : String)
    (t : Table) (fs : List (String × Value))
    (ht : lookupTable db table_name = some t)
    (hcols : ∀ f ∈ fs, f.1 ∈ t.columns.map Prod.fst) :
    get_records db table_name none = some (t.rows.map Prod.snd) ∧
    get_records db table_name (some fs) =
      some ((t.rows.map Prod.snd).filter (fun r => rowMatches fs r)) := by
  constructor
  · simp only [get_records, ht]
  · simp only [get_records, ht]
    cases hfe : fs.isEmpty with
    | true =>
      have hnil : fs = [] := by
        cases fs with
        | nil => rfl
        | cons f rest => cases hfe
      subst hnil
      simp [filter_rowMatches_nil]
    | false =>
      have hall : fs.all (fun f => hasCol (t.columns.map Prod.fst) f.1) =
          true := by
        rw [List.all_eq_true]
        intro f hf
        exact (hasCol_iff _ _).mpr (hcols f hf)
      simp [hfe, hall]

/-- Concrete table of the C3 witness, the three-row example of the
    specification. -/
def c3table : Table :=
  { columns := [("name", "TEXT"), ("age", "INTEGER")],
    rows := [(1, [("name", Value.text "John Doe"), ("age", Value.int 30)]),
             (2, [("name", Value.text "Jane Smith"), ("age", Value.int 25)]),
             (3, [("name", Value.text "Bob Johnson"), ("age", Value.int 30)])],
    ddl := "CREATE TABLE t (name TEXT, age INTEGER)" }

/-- C3 witness: on the specification's three-row example, filtering on
    age 30 keeps exactly the two matching rows and a conjoined filter with
    no matching row yields the empty list. -/
theorem get_records_filter_semantics_witness :
    lookupTable [("t", c3table)] "t" = some c3table ∧
    (∀ f ∈ [("age", Value.int 30)], f.1 ∈ c3table.columns.map Prod.fst) ∧
    (∀ f ∈ [("name", Value.text "Jane Smith"), ("age", Value.int 30)],
      f.1 ∈ c3table.columns.map Prod.fst) ∧
    get_records [("t", c3table)] "t" none =
      some (c3table.rows.map Prod.snd) ∧
    get_records [("t", c3table)] "t" (some [("age", Value.int 30)]) =
      some ((c3table.rows.map Prod.snd).filter
        (fun r => rowMatches [("age", Value.int 30)] r)) ∧
    get_records [("t", c3table)] "t"
        (some [("name", Value.text "Jane Smith"), ("age", Value.int 30)]) =
      some [] ∧
    ((c3table.rows.map Prod.snd).filter
      (fun r => rowMatches [("age", Value.int 30)] r)).length = 2 := by
  refine ⟨by decide, by decide, by decide, ?_, ?_, ?_, by decide⟩
  · exact (get_records_filter_semantics [("t", c3table)] "t" c3table
      [("age", Value.int 30)] (by decide) (by decide)).1
  · exact (get_records_filter_semantics [("t", c3table)] "t" c3table
      [("age", Value.int 30)] (by decide) (by decide)).2
  · have h2 := (get_records_filter_semantics [("t", c3table)] "t" c3table
      [("name", Value.text "Jane Smith"), ("age", Value.int 30)]
      (by decide) (by decide)).2
    rw [h2]
    decide

lemma update_rows_noop (rows : List (Int × Row)) (rid : Int) (g : Row → Row)
    (h : ∀ p ∈ rows, p.1 ≠ rid) :
    rows.map (fun p => if p.1 == rid then (p.1, g p.2) else p) = rows := by
  induction rows with
  | nil => rfl
  | cons p rest ih =>
    rw [List.map_cons, beq_false_of_ne (h p (List.mem_cons_self p rest))]
    rw [if_neg (by simp)]
    rw [ih (fun q hq => h q (List.mem_cons_of_mem p hq))]

lemma filter_rows_noop (rows : List (Int × Row)) (rid : Int)
    (h : ∀ p ∈ rows, p.1 ≠ rid) :
    rows.filter (fun p => !(p.1 == rid)) = rows := by
  induction rows with
  | nil => rfl
  | cons p rest ih =>
    rw [show List.filter (fun p => !(p.1 == rid)) (p :: rest) =
        p :: List.filter (fun p => !(p.1 == rid)) rest by
      simp [List.filter, beq_false_of_ne (h p (List.mem_cons_self p rest))]]
    rw [ih (fun q hq => h q (List.mem_cons_of_mem p hq))]

/-- C4: on an existing table, update_record and delete_record called with a
    record_id matching no rowid both return a success envelope and leave
    the database unchanged; zero affected rows is not reported as an
    error. -/
theorem update_delete_missing_rowid_noop (db : DB) (table_name : String)
    (record_id : Int) (data : List (String × Value)) (t : Table)
    (ht : lookupTable db table_name = some t)
    (hmiss : ∀ p ∈ t.rows, p.1 ≠ record_id)
    (hne : data ≠ [])
    (hcols : data.all (fun p => hasCol (t.columns.map Prod.fst) p.1) = true) :
    (∃ res : UpdateResult, update_record db table_name record_id data =
        some (res, db) ∧ res.status = "success") ∧
    (∃ res : DeleteResult, delete_record db table_name record_id =
        some (res, db) ∧ res.status = "success") := by
  have hsf : setFirst db table_name t = db :=
    setFirst_of_alookup db table_name t ht
  have heta : ({ columns := t.columns, rows := t.rows, ddl := t.ddl } :
      Table) = t := rfl
  constructor
  · refine ⟨⟨"success", record_id, data,
      update_record_sql table_name data⟩, ?_, rfl⟩
    simp only [update_record, isEmpty_false_of_ne_nil data hne, ht, hcols]
    rw [update_rows_noop t.rows record_id _ hmiss]
    simp only [heta, hsf]
    simp
  · refine ⟨⟨"success", record_id,
      "DELETE FROM " ++ table_name ++ " WHERE rowid = :record_id"⟩, ?_, rfl⟩
    simp only [delete_record, ht]
    rw [filter_rows_noop t.rows record_id hmiss]
    simp only [heta, hsf]

/-- Concrete single-row table of the C4 witness. -/
def c4table : Table :=
  { columns := [("a", "INTEGER")],
    rows := [(1, [("a", Value.int 7)])],
    ddl := "CREATE TABLE t (a INTEGER)" }

/-- C4 witness. -/
theorem update_delete_missing_rowid_noop_witness :
    lookupTable [("t", c4table)] "t" = some c4table ∧
    (∀ p ∈ c4table.rows, p.1 ≠ (5 : Int)) ∧
    ((∃ res : UpdateResult,
        update_record [("t", c4table)] "t" 5 [("a", Value.int 9)] =
          some (res, [("t", c4table)]) ∧
        res.status = "success") ∧
      (∃ res : DeleteResult,
        delete_record [("t", c4table)] "t" 5 =
          some (res, [("t", c4table)]) ∧
        res.status = "success")) := by
  refine ⟨by decide, by decide, ?_⟩
  exact update_delete_missing_rowid_noop [("t", c4table)] "t" 5
    [("a", Value.int 9)] c4table (by decide) (by decide) (by decide)
    (by decide)

/-- C5: a successful update_record call touches only the row whose rowid
    equals record_id, and within that row only the columns named in data:
    rowids are preserved pointwise, rows with a different rowid are
    unchanged, and in every row each column not named in data keeps its
    previous value. -/
theorem update_record_frame (db : DB) (table_name : String)
    (record_id : Int) (data : List (String × Value)) (res : UpdateResult)
    (db2 : DB)
    (h : update_record db table_name record_id data = some (res, db2)) :
    ∃ t t2, lookupTable db table_name = some t ∧
      lookupTable db2 table_name = some t2 ∧
      t2.rows.length = t.rows.length ∧
      ∀ i (hi : i < t.rows.length) (hi2 : i < t2.rows.length),
        (t2.rows[i].1 = t.rows[i].1) ∧
        (t.rows[i].1 ≠ record_id → t2.rows[i] = t.rows[i]) ∧
        (∀ c, c ∉ data.map Prod.fst →
          rowGet t2.rows[i].2 c = rowGet t.rows[i].2 c) := by
  simp only [update_record] at h
  split at h
  · cases h
  · split at h
    · cases h
    · rename_i t ht
      split at h
      · rename_i hcols
        injection h with h1
        injection h1 with h2 h3
        refine ⟨t, { t with rows := t.rows.map (fun p =>
          if p.1 == record_id then
            (p.1, updatedRow (data.map Prod.fst)
              (dictSet data "record_id" (Value.int record_id)) p.2)
          else p) }, ht, ?_, by simp, ?_⟩
        · rw [← h3]
          exact alookup_setFirst_self db table_name t _ ht
        · intro i hi hi2
          have hrow : ({ t with rows := t.rows.map (fun p =>
              if p.1 == record_id then
                (p.1, updatedRow (data.map Prod.fst)
                  (dictSet data "record_id" (Value.int record_id)) p.2)
              else p) } : Table).rows[i] =
              (if t.rows[i].1 == record_id then
                (t.rows[i].1, updatedRow (data.map Prod.fst)
                  (dictSet data "record_id" (Value.int record_id))
                  t.rows[i].2)
              else t.rows[i]) := by
            exact List.getElem_map _
          rw [hrow]
          refine ⟨?_, ?_, ?_⟩
          · cases hb : t.rows[i].1 == record_id with
            | true => simp [hb]
            | false => simp [hb]
          · intro hne
            rw [beq_false_of_ne hne]
            simp
          · intro c hc
            cases hb : t.rows[i].1 == record_id with
            | false => simp [hb]
            | true =>
              simp only [hb, if_true]
              rw [rowGet_updatedRow]
              rw [(hasCol_eq_false_iff (data.map Prod.fst) c).mpr hc]
              simp
      · cases h

/-- Concrete two-row table of the C5 witness. -/
def c5table : Table :=
  { columns := [("name", "TEXT"), ("age", "INTEGER")],
    rows := [(1, [("name", Value.text "John"), ("age", Value.int 30)]),
             (2, [("name", Value.text "Jane"), ("age", Value.int 25)])],
    ddl := "CREATE TABLE t (name TEXT, age INTEGER)" }

/-- C5 witness: updating only age on row 1 leaves name unchanged and row 2
    untouched. -/
theorem update_record_frame_witness :
    ∃ t t2, lookupTable [("t", c5table)] "t" = some t ∧
      lookupTable
        (((update_record [("t", c5table)] "t" 1
          [("age", Value.int 31)]).map Prod.snd).getD []) "t" = some t2 ∧
      t2.rows.length = t.rows.length ∧
      ∀ i (hi : i < t.rows.length) (hi2 : i < t2.rows.length),
        (t2.rows[i].1 = t.rows[i].1) ∧
        (t.rows[i].1 ≠ (1 : Int) → t2.rows[i] = t.rows[i]) ∧
        (∀ c, c ∉ ([("age", Value.int 31)] :
            List (String × Value)).map Prod.fst →
          rowGet t2.rows[i].2 c = rowGet t.rows[i].2 c) := by
  have happ := update_record_frame [("t", c5table)] "t" 1
    [("age", Value.int 31)]
    { status := "success", record_id := 1, data := [("age", Value.int 31)],
      sql := "UPDATE t SET age = :age WHERE rowid = :record_id" }
    [("t", { columns := [("name", "TEXT"), ("age", "INTEGER")],
             rows := [(1, [("name", Value.text "John"),
                           ("age", Value.int 31)]),
                      (2, [("name", Value.text "Jane"),
                           ("age", Value.int 25)])],
             ddl := "CREATE TABLE t (name TEXT, age INTEGER)" })]
    (by decide)
  exact happ

/-- C9: when the data mapping of a successful update_record call contains
    the key record_id (the table has a column of that name), the value
    stored in that column of the targeted row is the record_id argument,
    because params record_id = record_id overwrites the bound parameter the
    SET clause record_id = :record_id reads. -/
theorem update_record_param_collision (db : DB) (table_name : String)
    (record_id : Int) (data : List (String × Value)) (res : UpdateResult)
    (db2 : DB) (t : Table)
    (ht : lookupTable db table_name = some t) (hwt : TableWF t)
    (hmem : "record_id" ∈ data.map Prod.fst)
    (h : update_record db table_name record_id data = some (res, db2)) :
    ∃ t2, lookupTable db2 table_name = some t2 ∧
      ∀ p ∈ t2.rows, p.1 = record_id →
        rowGet p.2 "record_id" = some (Value.int record_id) := by
  simp only [update_record] at h
  split at h
  · cases h
  · split at h
    · cases h
    · rename_i t3 ht3
      rw [ht] at ht3
      injection ht3 with ht4
      subst ht4
      split at h
      · rename_i hcols
        injection h with h1
        injection h1 with h2 h3
        have hcolmem : "record_id" ∈ t.columns.map Prod.fst := by
          rcases List.mem_map.mp hmem with ⟨d, hd, hd1⟩
          have := List.all_eq_true.mp hcols d hd
          rw [hd1] at this
          exact (hasCol_iff _ _).mp this
        refine ⟨{ t with rows := t.rows.map (fun p =>
          if p.1 == record_id then
            (p.1, updatedRow (data.map Prod.fst)
              (dictSet data "record_id" (Value.int record_id)) p.2)
          else p) }, ?_, ?_⟩
        · rw [← h3]
          exact alookup_setFirst_self db table_name t _ ht
        · intro p hp hprid
          rcases List.mem_map.mp hp with ⟨q, hq, hfq⟩
          cases hb : q.1 == record_id with
          | false =>
            rw [← hfq]
            simp only [hb, Bool.false_eq_true, if_false]
            rw [← hfq] at hprid
            simp only [hb, Bool.false_eq_true, if_false] at hprid
            exact absurd hprid (by
              intro he
              rw [he] at hb
              simp at hb)
          | true =>
            rw [← hfq]
            simp only [hb, if_true]
            rw [rowGet_updatedRow]
            rcases rowGet_some_of_keys q.2 (t.columns.map Prod.fst)
              "record_id" (hwt.2 q hq) hcolmem with ⟨v, hv⟩
            rw [hv]
            rw [(hasCol_iff (data.map Prod.fst) "record_id").mpr hmem]
            rw [alookup_dictSet_self data "record_id" (Value.int record_id)]
            rfl
      · cases h

/-- Concrete table of the C9 witness: a column literally named record_id
    holding 99 in the single row. -/
def c9table : Table :=
  { columns := [("record_id", "INTEGER"), ("name", "TEXT")],
    rows := [(1, [("record_id", Value.int 99), ("name", Value.text "a")])],
    ddl := "CREATE TABLE t (record_id INTEGER, name TEXT)" }

/-- C9 witness: updating row 1 with data record_id = 555 stores 1 (the row
    handle), not 555, in the record_id column. -/
theorem update_record_param_collision_witness :
    lookupTable [("t", c9table)] "t" = some c9table ∧ TableWF c9table ∧
    "record_id" ∈ ([("record_id", Value.int 555),
      ("name", Value.text "b")] : List (String × Value)).map Prod.fst ∧
    ∃ t2, lookupTable
        (((update_record [("t", c9table)] "t" 1
          [("record_id", Value.int 555), ("name", Value.text "b")]).map
            Prod.snd).getD []) "t" = some t2 ∧
      ∀ p ∈ t2.rows, p.1 = (1 : Int) →
        rowGet p.2 "record_id" = some (Value.int 1) := by
  refine ⟨by decide, by decide, by decide, ?_⟩
  exact update_record_param_collision [("t", c9table)] "t" 1
    [("record_id", Value.int 555), ("name", Value.text "b")]
    { status := "success", record_id := 1,
      data := [("record_id", Value.int 555), ("name", Value.text "b")],
      sql := "UPDATE t SET record_id = :record_id, name = :name WHERE rowid = :record_id" }
    [("t", { columns := [("record_id", "INTEGER"), ("name", "TEXT")],
             rows := [(1, [("record_id", Value.int 1),
                           ("name", Value.text "b")])],
             ddl := "CREATE TABLE t (record_id INTEGER, name TEXT)" })]
    c9table (by decide) (by decide) (by decide) (by decide)

lemma distinctB_filter (l : List String) (p : String → Bool)
    (h : distinctB l = true) : distinctB (l.filter p) = true := by
  induction l with
  | nil => rfl
  | cons x rest ih =>
    rw [distinctB_cons_iff] at h
    cases hp : p x with
    | true =>
      rw [show List.filter p (x :: rest) = x :: List.filter p rest by
        simp [List.filter, hp]]
      rw [distinctB_cons_iff]
      exact ⟨fun hmem => h.1 (List.mem_of_mem_filter hmem), ih h.2⟩
    | false =>
      rw [show List.filter p (x :: rest) = List.filter p rest by
        simp [List.filter, hp]]
      exact ih h.2

lemma filter_ne_of_not_mem (l : List String) (cn : String) (h : cn ∉ l) :
    l.filter (fun c => !(c == cn)) = l := by
  induction l with
  | nil => rfl
  | cons x rest ih =>
    have hx : x ≠ cn := fun he => h (he ▸ List.mem_cons_self x rest)
    rw [show List.filter (fun c => !(c == cn)) (x :: rest) =
        x :: List.filter (fun c => !(c == cn)) rest by
      simp [List.filter, beq_false_of_ne hx]]
    rw [ih (fun hm => h (List.mem_cons_of_mem x hm))]

lemma map_mk_snd {α β : Type} (l : List α) (g : α → β) :
    (l.map (fun x => (x, g x))).map Prod.snd = l.map g := by
  induction l with
  | nil => rfl
  | cons x rest ih => simp [ih]

lemma map_mk_fst_apply {α β γ : Type} (l : List α) (g : α → β)
    (f : α → γ) : (l.map (fun x => (x, g x))).map (fun s => f s.1) =
      l.map f := by
  induction l with
  | nil => rfl
  | cons x rest ih => simp [ih]

lemma distinctB_map_subst (cols : List String) (oldc newc : String)
    (hnd : distinctB cols = true)
    (hnc : newc ∉ cols.filter (fun c => !(c == oldc))) :
    distinctB (cols.map (fun c => if c == oldc then newc else c)) = true := by
  induction cols with
  | nil => rfl
  | cons x rest ih =>
    rw [distinctB_cons_iff] at hnd
    have hrest : newc ∉ rest.filter (fun c => !(c == oldc)) := by
      intro hm
      apply hnc
      cases hb : (x == oldc) with
      | true =>
        rw [show List.filter (fun c => !(c == oldc)) (x :: rest) =
            List.filter (fun c => !(c == oldc)) rest by
          simp [List.filter, hb]]
        exact hm
      | false =>
        rw [show List.filter (fun c => !(c == oldc)) (x :: rest) =
            x :: List.filter (fun c => !(c == oldc)) rest by
          simp [List.filter, hb]]
        exact List.mem_cons_of_mem x hm
    rw [List.map_cons, distinctB_cons_iff]
    refine ⟨?_, ih hnd.2 hrest⟩
    intro hmem
    rcases List.mem_map.mp hmem with ⟨d, hd, hde⟩
    cases hb : (x == oldc) with
    | true =>
      simp only [hb, if_true] at hde
      cases hbd : (d == oldc) with
      | true =>
        rw [beq_iff_eq] at hb hbd
        exact hnd.1 (by rw [hb, ← hbd]; exact hd)
      | false =>
        simp only [hbd, Bool.false_eq_true, if_false] at hde
        exact hrest (hde ▸ List.mem_filter.mpr ⟨hd, by simp [hbd]⟩)
    | false =>
      simp only [hb, Bool.false_eq_true, if_false] at hde
      cases hbd : (d == oldc) with
      | true =>
        simp only [hbd, if_true] at hde
        apply hnc
        rw [show List.filter (fun c => !(c == oldc)) (x :: rest) =
            x :: List.filter (fun c => !(c == oldc)) rest by
          simp [List.filter, hb]]
        rw [hde]
        exact List.mem_cons_self x _
      | false =>
        rw [hbd] at hde
        simp only [Bool.false_eq_true, if_false] at hde
        exact hnd.1 (hde ▸ hd)

lemma all_hasCol_of_mem (sels : List (String × String)) (cols : List String)
    (h : ∀ s ∈ sels, s.1 ∈ cols) :
    sels.all (fun s => hasCol cols s.1) = true := by
  rw [List.all_eq_true]
  intro s hs
  exact (hasCol_iff cols s.1).mpr (h s hs)

lemma map_id_fun {α : Type} (l : List α) : l.map (fun x => x) = l := by
  induction l with
  | nil => rfl
  | cons x rest ih => rw [List.map_cons, ih]

lemma map_ne_nil {α β : Type} (l : List α) (f : α → β) (h : l ≠ []) :
    l.map f ≠ [] := by
  cases l with
  | nil => exact absurd rfl h
  | cons x rest => simp

lemma drop_column_rebuild (db : DB) (tn cn : String) (t : Table)
    (hwf : DBWF db) (ht : lookupTable db tn = some t) (hwt : TableWF t)
    (htmp : tableExists db (tn ++ "_new") = false)
    (hretne : (t.columns.map Prod.fst).filter (fun c => !(c == cn)) ≠ []) :
    ∃ db2 t2,
      drop_column db tn cn =
        some ("ALTER TABLE " ++ tn ++ " DROP COLUMN " ++ cn, db2) ∧
      lookupTable db2 tn = some t2 ∧
      t2.columns.map Prod.fst =
        (t.columns.map Prod.fst).filter (fun c => !(c == cn)) ∧
      rowsData t2 ((t.columns.map Prod.fst).filter (fun c => !(c == cn))) =
        rowsData t ((t.columns.map Prod.fst).filter (fun c => !(c == cn))) := by
  have hselsnd : (((t.columns.map Prod.fst).filter
      (fun c => !(c == cn))).map (fun c => (c, c))).map Prod.snd =
      (t.columns.map Prod.fst).filter (fun c => !(c == cn)) := by
    rw [map_mk_snd _ (fun c => c), map_id_fun]
  have hnd : distinctB ((((t.columns.map Prod.fst).filter
      (fun c => !(c == cn))).map (fun c => (c, c))).map Prod.snd) = true := by
    rw [hselsnd]
    exact distinctB_filter _ _ hwt.1
  have hne : ((t.columns.map Prod.fst).filter
      (fun c => !(c == cn))).map (fun c => (c, c)) ≠ [] :=
    map_ne_nil _ _ hretne
  have hsrcmem : ∀ s ∈ ((t.columns.map Prod.fst).filter
      (fun c => !(c == cn))).map (fun c => (c, c)),
      s.1 ∈ t.columns.map Prod.fst := by
    intro s hs
    rcases List.mem_map.mp hs with ⟨c, hc, hce⟩
    rw [← hce]
    exact List.mem_of_mem_filter hc
  have hcr := copyRebuild_spec db tn
    (((t.columns.map Prod.fst).filter
      (fun c => !(c == cn))).map (fun c => (c, c))) t hwf ht htmp hne
    (all_hasCol_of_mem _ _ hsrcmem)
  refine ⟨removeFirst db tn ++
      [(tn, { createdTable t (((t.columns.map Prod.fst).filter
          (fun c => !(c == cn))).map (fun c => (c, c))) (tn ++ "_new") with
        ddl := renamedDdl tn (createdTable t (((t.columns.map
          Prod.fst).filter (fun c => !(c == cn))).map (fun c => (c, c)))
          (tn ++ "_new")).columns })],
    { createdTable t (((t.columns.map Prod.fst).filter
        (fun c => !(c == cn))).map (fun c => (c, c))) (tn ++ "_new") with
      ddl := renamedDdl tn (createdTable t (((t.columns.map
        Prod.fst).filter (fun c => !(c == cn))).map (fun c => (c, c)))
        (tn ++ "_new")).columns },
    ?_, lookupTable_rebuilt db tn _ hwf, ?_, ?_⟩
  · simp only [drop_column, pragmaTableInfo, ht]
    rw [hcr]
    rfl
  · rw [show ({ createdTable t (((t.columns.map Prod.fst).filter
        (fun c => !(c == cn))).map (fun c => (c, c))) (tn ++ "_new") with
        ddl := renamedDdl tn (createdTable t (((t.columns.map
          Prod.fst).filter (fun c => !(c == cn))).map (fun c => (c, c)))
          (tn ++ "_new")).columns } : Table).columns =
        (createdTable t (((t.columns.map Prod.fst).filter
          (fun c => !(c == cn))).map (fun c => (c, c)))
          (tn ++ "_new")).columns from rfl]
    rw [createdTable_columns_names _ _ _ hnd]
    exact hselsnd
  · have hrd := rowsData_createdTable t
      (((t.columns.map Prod.fst).filter
        (fun c => !(c == cn))).map (fun c => (c, c))) (tn ++ "_new")
      hnd hwt.2 hsrcmem
    rw [hselsnd] at hrd
    rw [rowsData_ddl_congr, hrd]
    simp only [rowsData]
    apply map_congr_mem
    intro p hp
    exact map_mk_fst_apply _ (fun c => c) (fun c => rowGet p.2 c)

lemma rename_column_rebuild (db : DB) (tn oldc newc : String) (t : Table)
    (hwf : DBWF db) (ht : lookupTable db tn = some t) (hwt : TableWF t)
    (htmp : tableExists db (tn ++ "_new") = false)
    (hcne : t.columns ≠ [])
    (hnc : newc ∉ (t.columns.map Prod.fst).filter (fun c => !(c == oldc))) :
    ∃ db2 t2,
      rename_column db tn oldc newc =
        some ("ALTER TABLE " ++ tn ++ " RENAME COLUMN " ++ oldc ++ " TO " ++
          newc, db2) ∧
      lookupTable db2 tn = some t2 ∧
      rowsData t2 ((t.columns.map Prod.fst).map
          (fun c => if c == oldc then newc else c)) =
        rowsData t (t.columns.map Prod.fst) := by
  have hsels : (t.columns.map Prod.fst).map
      (fun c => if c == oldc then (c, newc) else (c, c)) =
      (t.columns.map Prod.fst).map
        (fun c => (c, if c == oldc then newc else c)) := by
    apply map_congr_mem
    intro c hc
    cases hb : (c == oldc) with
    | true => simp [hb]
    | false => simp [hb]
  have hselsnd : ((t.columns.map Prod.fst).map
      (fun c => (c, if c == oldc then newc else c))).map Prod.snd =
      (t.columns.map Prod.fst).map
        (fun c => if c == oldc then newc else c) :=
    map_mk_snd _ (fun c => if c == oldc then newc else c)
  have hnd : distinctB (((t.columns.map Prod.fst).map
      (fun c => (c, if c == oldc then newc else c))).map Prod.snd) = true := by
    rw [hselsnd]
    exact distinctB_map_subst _ oldc newc hwt.1 hnc
  have hne : (t.columns.map Prod.fst).map
      (fun c => (c, if c == oldc then newc else c)) ≠ [] :=
    map_ne_nil _ _ (map_ne_nil _ _ hcne)
  have hsrcmem : ∀ s ∈ (t.columns.map Prod.fst).map
      (fun c => (c, if c == oldc then newc else c)),
      s.1 ∈ t.columns.map Prod.fst := by
    intro s hs
    rcases List.mem_map.mp hs with ⟨c, hc, hce⟩
    rw [← hce]
    exact hc
  have hcr := copyRebuild_spec db tn
    ((t.columns.map Prod.fst).map
      (fun c => (c, if c == oldc then newc else c))) t hwf ht htmp hne
    (all_hasCol_of_mem _ _ hsrcmem)
  refine ⟨removeFirst db tn ++
      [(tn, { createdTable t ((t.columns.map Prod.fst).map
          (fun c => (c, if c == oldc then newc else c))) (tn ++ "_new") with
        ddl := renamedDdl tn (createdTable t ((t.columns.map Prod.fst).map
          (fun c => (c, if c == oldc then newc else c)))
          (tn ++ "_new")).columns })],
    { createdTable t ((t.columns.map Prod.fst).map
        (fun c => (c, if c == oldc then newc else c))) (tn ++ "_new") with
      ddl := renamedDdl tn (createdTable t ((t.columns.map Prod.fst).map
        (fun c => (c, if c == oldc then newc else c)))
        (tn ++ "_new")).columns },
    ?_, lookupTable_rebuilt db tn _ hwf, ?_⟩
  · simp only [rename_column, pragmaTableInfo, ht]
    rw [hsels, hcr]
    rfl
  · have hrd := rowsData_createdTable t
      ((t.columns.map Prod.fst).map
        (fun c => (c, if c == oldc then newc else c))) (tn ++ "_new")
      hnd hwt.2 hsrcmem
    rw [hselsnd] at hrd
    rw [rowsData_ddl_congr, hrd]
    simp only [rowsData]
    apply map_congr_mem
    intro p hp
    exact map_mk_fst_apply _ (fun c => if c == oldc then newc else c)
      (fun c => rowGet p.2 c)

/-- Concrete table of the C6 counterexample: columns b and a, one row with
    b holding text x and a holding integer 1. -/
def c6table : Table :=
  { columns := [("b", "TEXT"), ("a", "INT")],
    rows := [(1, [("b", Value.text "x"), ("a", Value.int 1)])],
    ddl := "CREATE TABLE t (b TEXT, a INT)" }

/-- C6 counterexample: rename_column from a to b on a table that already
    has a column b completes its copy-rebuild, but the values stored under
    the new name b afterwards are the old b column's values (text x), not
    the renamed column a's values (integer 1): the engine deduplicates the
    result columns b, b of the SELECT by renaming the second to b:1, so the
    renamed data lands under b:1 instead of b. -/
theorem rename_column_collision_cex :
    (rename_column [("t", c6table)] "t" "a" "b").map (fun p =>
      (lookupTable p.2 "t").map (fun t2 =>
        t2.rows.map (fun r => rowGet r.2 "b"))) =
      some (some [some (Value.text "x")]) ∧
    c6table.rows.map (fun r => rowGet r.2 "a") = [some (Value.int 1)] ∧
    Value.text "x" ≠ Value.int 1 := by
  refine ⟨by decide, by decide, by decide⟩

/-- C6 (amended): the copy-rebuild sequences preserve row data.  After a
    completed drop_column, every retained column of every row holds the
    value it held before, and after a completed rename_column whose new
    name does not collide with another retained column, every column holds
    its previous value, the renamed one under the new name.  On a name
    collision the engine renames duplicate result columns with numeric
    suffixes and the renamed data is preserved under a suffixed name
    instead. -/
theorem copy_rebuild_preserves_data :
    (∀ (db : DB) (tn cn : String) (t : Table), DBWF db →
      lookupTable db tn = some t → TableWF t →
      tableExists db (tn ++ "_new") = false →
      (t.columns.map Prod.fst).filter (fun c => !(c == cn)) ≠ [] →
      ∃ db2 t2, drop_column db tn cn =
          some ("ALTER TABLE " ++ tn ++ " DROP COLUMN " ++ cn, db2) ∧
        lookupTable db2 tn = some t2 ∧
        rowsData t2 ((t.columns.map Prod.fst).filter (fun c => !(c == cn))) =
          rowsData t ((t.columns.map Prod.fst).filter (fun c => !(c == cn)))) ∧
    (∀ (db : DB) (tn oldc newc : String) (t : Table), DBWF db →
      lookupTable db tn = some t → TableWF t →
      tableExists db (tn ++ "_new") = false →
      t.columns ≠ [] →
      newc ∉ (t.columns.map Prod.fst).filter (fun c => !(c == oldc)) →
      ∃ db2 t2, rename_column db tn oldc newc =
          some ("ALTER TABLE " ++ tn ++ " RENAME COLUMN " ++ oldc ++
            " TO " ++ newc, db2) ∧
        lookupTable db2 tn = some t2 ∧
        rowsData t2 ((t.columns.map Prod.fst).map
          (fun c => if c == oldc then newc else c)) =
          rowsData t (t.columns.map Prod.fst)) := by
  constructor
  · intro db tn cn t hwf ht hwt htmp hret
    rcases drop_column_rebuild db tn cn t hwf ht hwt htmp hret with
      ⟨db2, t2, h1, h2, h3, h4⟩
    exact ⟨db2, t2, h1, h2, h4⟩
  · intro db tn oldc newc t hwf ht hwt htmp hcne hnc
    exact rename_column_rebuild db tn oldc newc t hwf ht hwt htmp hcne hnc

/-- Concrete table of the C6 and C10 witnesses. -/
def c6wtable : Table :=
  { columns := [("id", "INTEGER"), ("name", "TEXT"), ("age", "INTEGER")],
    rows := [(1, [("id", Value.int 1), ("name", Value.text "J"),
                  ("age", Value.int 30)]),
             (2, [("id", Value.int 2), ("name", Value.text "K"),
                  ("age", Value.int 25)])],
    ddl := "CREATE TABLE t (id INTEGER, name TEXT, age INTEGER)" }

/-- C6 witness. -/
theorem copy_rebuild_preserves_data_witness :
    (DBWF [("t", c6wtable)] ∧
      lookupTable [("t", c6wtable)] "t" = some c6wtable ∧
      TableWF c6wtable ∧
      tableExists [("t", c6wtable)] ("t" ++ "_new") = false ∧
      (c6wtable.columns.map Prod.fst).filter (fun c => !(c == "age")) ≠ [] ∧
      ∃ db2 t2, drop_column [("t", c6wtable)] "t" "age" =
          some ("ALTER TABLE " ++ "t" ++ " DROP COLUMN " ++ "age", db2) ∧
        lookupTable db2 "t" = some t2 ∧
        rowsData t2 ((c6wtable.columns.map Prod.fst).filter
          (fun c => !(c == "age"))) =
          rowsData c6wtable ((c6wtable.columns.map Prod.fst).filter
            (fun c => !(c == "age")))) ∧
    (c6wtable.columns ≠ [] ∧
      "years" ∉ (c6wtable.columns.map Prod.fst).filter
        (fun c => !(c == "age")) ∧
      ∃ db2 t2, rename_column [("t", c6wtable)] "t" "age" "years" =
          some ("ALTER TABLE " ++ "t" ++ " RENAME COLUMN " ++ "age" ++
            " TO " ++ "years", db2) ∧
        lookupTable db2 "t" = some t2 ∧
        rowsData t2 ((c6wtable.columns.map Prod.fst).map
          (fun c => if c == "age" then "years" else c)) =
          rowsData c6wtable (c6wtable.columns.map Prod.fst)) := by
  refine ⟨⟨by decide, by decide, by decide, by decide, by decide, ?_⟩,
    by decide, by decide, ?_⟩
  · exact copy_rebuild_preserves_data.1 [("t", c6wtable)] "t" "age"
      c6wtable (by decide) (by decide) (by decide) (by decide) (by decide)
  · exact copy_rebuild_preserves_data.2 [("t", c6wtable)] "t" "age" "years"
      c6wtable (by decide) (by decide) (by decide) (by decide) (by decide)
      (by decide)

/-- C10: drop_column with a column name that occurs nowhere in the table
    does not fail: the introspected column list is unchanged by the filter,
    the copy-rebuild still runs, the resulting table keeps the same column
    names and row data, and the call returns the synthesized DDL string
    claiming the column was dropped. -/
theorem drop_column_missing_column_noop (db : DB) (tn cn : String)
    (t : Table) (hwf : DBWF db) (ht : lookupTable db tn = some t)
    (hwt : TableWF t) (htmp : tableExists db (tn ++ "_new") = false)
    (hcne : t.columns ≠ []) (hnot : cn ∉ t.columns.map Prod.fst) :
    ∃ db2 t2, drop_column db tn cn =
        some ("ALTER TABLE " ++ tn ++ " DROP COLUMN " ++ cn, db2) ∧
      lookupTable db2 tn = some t2 ∧
      t2.columns.map Prod.fst = t.columns.map Prod.fst ∧
      rowsData t2 (t.columns.map Prod.fst) =
        rowsData t (t.columns.map Prod.fst) := by
  have hfe := filter_ne_of_not_mem (t.columns.map Prod.fst) cn hnot
  have hret : (t.columns.map Prod.fst).filter (fun c => !(c == cn)) ≠ [] := by
    rw [hfe]
    exact map_ne_nil _ _ hcne
  rcases drop_column_rebuild db tn cn t hwf ht hwt htmp hret with
    ⟨db2, t2, h1, h2, h3, h4⟩
  rw [hfe] at h3 h4
  exact ⟨db2, t2, h1, h2, h3, h4⟩

/-- Concrete table of the C10 witness. -/
def c10table : Table :=
  { columns := [("a", "INTEGER"), ("b", "TEXT")],
    rows := [(1, [("a", Value.int 1), ("b", Value.text "x")])],
    ddl := "CREATE TABLE u (a INTEGER, b TEXT)" }

/-- C10 witness. -/
theorem drop_column_missing_column_noop_witness :
    DBWF [("u", c10table)] ∧
    lookupTable [("u", c10table)] "u" = some c10table ∧
    TableWF c10table ∧
    tableExists [("u", c10table)] ("u" ++ "_new") = false ∧
    c10table.columns ≠ [] ∧
    "zzz" ∉ c10table.columns.map Prod.fst ∧
    ∃ db2 t2, drop_column [("u", c10table)] "u" "zzz" =
        some ("ALTER TABLE " ++ "u" ++ " DROP COLUMN " ++ "zzz", db2) ∧
      lookupTable db2 "u" = some t2 ∧
      t2.columns.map Prod.fst = c10table.columns.map Prod.fst ∧
      rowsData t2 (c10table.columns.map Prod.fst) =
        rowsData c10table (c10table.columns.map Prod.fst) := by
  refine ⟨by decide, by decide, by decide, by decide, by decide,
    by decide, ?_⟩
  exact drop_column_missing_column_noop [("u", c10table)] "u" "zzz"
    c10table (by decide) (by decide) (by decide) (by decide) (by decide)
    (by decide)

end SchemaGen
